import Mathlib

/-!
Shallow embedding of the HD44780 LCD driver in `Tests/LCD/lcd.c`.

The driver's observable behaviour consists of
* two global state variables, `lcdCursor : uint8_t` and `utf8Buffer : uint32_t`,
* the sequence of transfers it drives onto the 4-bit bus.

We model machine integers as `Nat` with explicit `% 2^w` at the points where
the C code converts or can overflow, and we record each bus-level action as a
`BusEv` appended to the state's event trace.  The bus is modelled at the
granularity of `sendNibble` (one nibble transfer) and `SEND_BYTE` (one byte
transfer together with the fixed post-transfer delay of the default
fixed-delay configuration; `LCD_BUSY_TIMEOUT` is not defined in `lcd.h`).
The configuration of `lcd.h` is used throughout: `LCD_CC_TILDE = 1` and
`LCD_CC_BACKSLASH = 2` are defined, `LCD_CC_IXI` is not.
-/

/-- One observable bus action of the driver.
* `nib rs n`: `sendNibble(rs, n)`.
* `byte rs b d`: `SEND_BYTE(rs, b, d)` — a byte transfer (`sendByte`)
  followed by a fixed delay of `d` microseconds.
* `wMs t` / `wUs t`: a bare `delayMs(t)` / `_delay_us(t)`. -/
inductive BusEv where
  | nib (rs n : Nat)
  | byte (rs b d : Nat)
  | wMs (t : Nat)
  | wUs (t : Nat)
deriving DecidableEq

/-- The driver's global state: `lcdCursor`, `utf8Buffer`, and the trace of
bus actions performed so far. -/
structure LcdState where
  lcdCursor : Nat
  utf8Buffer : Nat
  events : List BusEv
deriving DecidableEq

/-- State after C static initialisation: `lcdCursor = 0`, `utf8Buffer = 0`,
nothing sent yet. -/
def lcdInitState : LcdState := ⟨0, 0, []⟩

/-- Append one bus action to the trace. -/
def emit (s : LcdState) (e : BusEv) : LcdState :=
  { s with events := s.events ++ [e] }

/-- `SEND_BYTE(regSel, c, delay)` in the fixed-delay configuration. -/
def sendByteEv (s : LcdState) (regSel c delay : Nat) : LcdState :=
  emit s (.byte regSel c delay)

/-- The DDRAM address computed by `updateCursor` from `lcdCursor`. -/
def ddramAddress (lcdCursor : Nat) : Nat :=
  if lcdCursor < 16 then lcdCursor
  else if lcdCursor < 32 then 0x40 ||| (lcdCursor &&& 0x0f)
  else 0x00

/-- `updateCursor()`: issue "set DDRAM address" for the current cursor. -/
def updateCursor (s : LcdState) : LcdState :=
  sendByteEv s 0 (0b10000000 ||| ddramAddress s.lcdCursor) 42

/-- `lcd_line1()`. -/
def lcd_line1 (s : LcdState) : LcdState :=
  updateCursor { s with lcdCursor := 0 }

/-- `lcd_line2()`. -/
def lcd_line2 (s : LcdState) : LcdState :=
  updateCursor { s with lcdCursor := 16 }

/-- `lcd_goto(row, column)` (both parameters are `unsigned char`). -/
def lcd_goto (s : LcdState) (row column : Nat) : LcdState :=
  let row := if row < 1 then 1 else row
  let row := if row > 2 then 2 else row
  let column := if column < 1 then 1 else column
  let column := if column > 16 then 16 else column
  updateCursor { s with lcdCursor := ((row - 1) <<< 4) ||| (column - 1) }

/-- `lcd_move(row, column)` (both parameters are signed `char`; the
intermediate arithmetic happens at `int` width).  On two's-complement
machines, `v & 1` and `v & 0x0f` on an `int` are `v.emod 2` and `v.emod 16`,
which is how the bit-masks are rendered here on `Int`. -/
def lcd_move (s : LcdState) (row column : Int) : LcdState :=
  let newRow : Int := (((s.lcdCursor : Int) / 16) + (row + 1)) % 2
  let newCol : Int := ((s.lcdCursor : Int) + (column + 15)) % 16
  updateCursor { s with lcdCursor := (newRow.toNat <<< 4) ||| newCol.toNat }

/-- `lcd_back()`. -/
def lcd_back (s : LcdState) : LcdState :=
  updateCursor { s with lcdCursor := if s.lcdCursor = 0 then 31 else s.lcdCursor - 1 }

/-- `lcd_home()`. -/
def lcd_home (s : LcdState) : LcdState :=
  updateCursor { s with lcdCursor := s.lcdCursor &&& 0x10 }

/-- `lcd_forward()` (the increment is on a `uint8_t`). -/
def lcd_forward (s : LcdState) : LcdState :=
  updateCursor { s with lcdCursor := if s.lcdCursor = 31 then 0 else (s.lcdCursor + 1) % 256 }

/-- `lcd_clear()`. -/
def lcd_clear (s : LcdState) : LcdState :=
  { sendByteEv s 0 0b00000001 1640 with lcdCursor := 0 }

/-- The `switch (codePoint)` glyph table of `lcd_writeChar`, with the
`lcd.h` defaults `LCD_CC_TILDE = 1`, `LCD_CC_BACKSLASH = 2` and no
`LCD_CC_IXI`. -/
def glyphMap (codePoint : Nat) : Nat :=
  match codePoint with
  | 0x0000005c => 2    -- LCD_CC_BACKSLASH
  | 0x0000007e => 1    -- LCD_CC_TILDE
  | 0x0000009d => 0x5c
  | 0x00002192 => 0x7e
  | 0x00002190 => 0x7f
  | 0x00002092 => 0xa1
  | 0x000000da => 0xa2
  | 0x000000d9 => 0xa3
  | 0x000000b7 => 0xa5
  | 0x00002203 | 0x0000018e => 0xae
  | 0x000025af | 0x000025a1 => 0xdb
  | 0x000000b0 => 0xdf
  | 0x000003b1 => 0xe0
  | 0x000000e4 => 0xe1
  | 0x000003b2 | 0x000000df => 0xe2
  | 0x000003b5 | 0x00000190 => 0xe3
  | 0x000003bc | 0x000000b5 => 0xe4
  | 0x000003c3 => 0xe5
  | 0x000003c1 => 0xe6
  | 0x0000221a => 0xe8
  | 0x0000215f => 0xe9
  | 0x000000a2 => 0xec
  | 0x000000f1 => 0xee
  | 0x000000f6 => 0xef
  | 0x000003b8 => 0xf2
  | 0x0000221e => 0xf3
  | 0x000003a9 => 0xf4
  | 0x000000fc => 0xf5
  | 0x000003a3 => 0xf6
  | 0x000003c0 => 0xf7
  | 0x000000f7 => 0xfd
  | 0x000025ae | 0x000025a0 => 0xff
  | cp => if cp ≤ 0x00000080 then cp else 0xff

/-- The UTF-8 accumulation and classification step of `lcd_writeChar`:
shift the new byte into the 32-bit `utf8Buffer` and classify.  Returns the
new buffer value and `some codePoint` when a decode is dispatched
(`utf8Buffer` then resets to 0), or `none` on the keep-buffering path. -/
def utf8Step (utf8Buffer character : Nat) : Nat × Option Nat :=
  let buf := ((utf8Buffer <<< 8) % 2 ^ 32) ||| (character % 256)
  if buf &&& 0xf8000000 = 0xf0000000 then
    -- 4-byte character (11110xxx 10xxxxxx 10xxxxxx 10xxxxxx)
    (0, some (if buf &&& 0x00c0c0c0 = 0x00808080 then
        ((buf &&& 0x07000000) >>> 6) ||| ((buf &&& 0x003f0000) >>> 4)
          ||| ((buf &&& 0x00003f00) >>> 2) ||| (buf &&& 0x0000003f)
      else 0x0000fffd))
  else if buf &&& 0xfff00000 = 0x00e00000 then
    -- 3-byte character (1110xxxx 10xxxxxx 10xxxxxx)
    (0, some (if buf &&& 0x0000c0c0 = 0x00008080 then
        ((buf &&& 0x000f0000) >>> 4) ||| ((buf &&& 0x00003f00) >>> 2)
          ||| (buf &&& 0x0000003f)
      else 0x0000fffd))
  else if buf &&& 0xffffe000 = 0x0000c000 then
    -- 2-byte character (110xxxxx 10xxxxxx)
    (0, some (if buf &&& 0x000000c0 = 0x00000080 then
        ((buf &&& 0x00001f00) >>> 2) ||| (buf &&& 0x0000003f)
      else 0x0000fffd))
  else if buf &&& 0xffffff80 = 0x00000000 then
    -- 1-byte character (0xxxxxxx)
    (0, some buf)
  else
    -- Incomplete character, wait for more before writing
    (buf, none)

/-- `lcd_writeChar(character)` (the parameter is a `char`, read as a
`uint8_t`, hence the `% 256` inside `utf8Step`). -/
def lcd_writeChar (s : LcdState) (character : Nat) : LcdState :=
  match utf8Step s.utf8Buffer character with
  | (buf, none) => { s with utf8Buffer := buf }
  | (buf, some codePoint) =>
    let s := { s with utf8Buffer := buf }
    if codePoint = 10 then
      -- When in line 1, go to line 2; when in line 2, roll over
      updateCursor { s with lcdCursor := if s.lcdCursor < 16 then 16 else 32 }
    else
      let lcdCode := glyphMap codePoint
      -- If current line is full, break automatically
      let s := if s.lcdCursor = 32 then lcd_clear s
               else if s.lcdCursor = 16 then lcd_line2 s
               else s
      let s := sendByteEv s 1 lcdCode 46
      { s with lcdCursor := (s.lcdCursor + 1) % 256 }

/-- `lcd_writeString` / `lcd_writeProgString`: write a list of bytes through
`lcd_writeChar`. -/
def lcd_writeString (s : LcdState) (text : List Nat) : LcdState :=
  text.foldl lcd_writeChar s

/-- `lcd_erase(line)`: save the cursor, overwrite the line with 16 spaces,
restore the cursor. -/
def lcd_erase (s : LcdState) (line : Nat) : LcdState :=
  let cursorBackup := s.lcdCursor
  let s := lcd_goto s line 1
  let s := lcd_writeString s (List.replicate 16 0x20)
  updateCursor { s with lcdCursor := cursorBackup }

/-- The `CUSTOM_CHAR` macro of `lcd.h`: pack eight bitmap rows into a
64-bit integer, top row in the lowest byte. -/
def customChar (cc0 cc1 cc2 cc3 cc4 cc5 cc6 cc7 : Nat) : Nat :=
  0 ||| (cc0 <<< (0 * 8)) ||| (cc1 <<< (1 * 8)) ||| (cc2 <<< (2 * 8)) |||
    (cc3 <<< (3 * 8)) ||| (cc4 <<< (4 * 8)) ||| (cc5 <<< (5 * 8)) |||
    (cc6 <<< (6 * 8)) ||| (cc7 <<< (7 * 8))

/-- `LCD_CC_TILDE_BITMAP` from `lcd.h`. -/
def tildeBitmap : Nat :=
  customChar 0x00 0x08 0x15 0x02 0x00 0x00 0x00 0x00

/-- `LCD_CC_BACKSLASH_BITMAP` from `lcd.h`. -/
def backslashBitmap : Nat :=
  customChar 0x00 0x10 0x08 0x04 0x02 0x01 0x00 0x00

/-- The 8-iteration data loop of `lcd_registerCustomChar`: send the low
byte of `chr`, shift `chr` right by 8, repeat. -/
def cgramWriteLoop (s : LcdState) (chr : Nat) : Nat → LcdState
  | 0 => s
  | i + 1 => cgramWriteLoop (sendByteEv s 1 (chr % 256) 46) (chr >>> 8) i

/-- `lcd_registerCustomChar(addr, chr)` (`addr : uint8_t`, `chr : uint64_t`).
The "set CGRAM address" operand `0b01000000 | (8 * addr)` is computed at
`int` width and truncated to `uint8_t` by the `sendByte` parameter. -/
def lcd_registerCustomChar (s : LcdState) (addr chr : Nat) : LcdState :=
  let s := sendByteEv s 0 ((0b01000000 ||| (8 * addr)) % 256) 42
  let s := cgramWriteLoop s chr 8
  -- Move address pointer back to DDRAM
  updateCursor s

/-- `lcd_init()`: power-on delay, homing sequence, display configuration,
then registration of the tilde and backslash custom glyphs (`LCD_CC_IXI`
is not defined in `lcd.h`).  Pin-direction configuration involves no bus
transfer and is outside the model. -/
def lcd_init : LcdState :=
  let s := emit lcdInitState (.wMs 15)
  -- homing sequence
  let s := emit s (.nib 0 0b0011)
  let s := emit s (.wMs 5)
  let s := emit s (.nib 0 0b0011)
  let s := emit s (.wUs 100)
  let s := emit s (.nib 0 0b0011)
  let s := emit s (.wUs 100)
  let s := emit s (.nib 0 0b0010)
  let s := emit s (.wUs 42)
  -- function set: 4-bit, 2 lines, 5x8
  let s := sendByteEv s 0 0b00101000 42
  -- display off
  let s := sendByteEv s 0 0b00001000 42
  let s := lcd_clear s
  -- entry mode set
  let s := sendByteEv s 0 0b00000110 42
  -- display on
  let s := sendByteEv s 0 0b00001100 42
  let s := lcd_registerCustomChar s 1 tildeBitmap
  lcd_registerCustomChar s 2 backslashBitmap

/-- The leading-zero scan of `lcd_writeDec`:
`while (number / mask == 0) mask /= 10;` with `mask` starting at 10000.
`fuel` bounds the number of iterations; `none` models either running out
of fuel or reaching `mask = 0`, where the C loop condition divides by
zero (undefined behaviour; with AVR's software division returning 0 the
loop never exits). -/
def findMask (number : Nat) : Nat → Nat → Option Nat
  | _, 0 => none
  | mask, fuel + 1 =>
    if mask = 0 then none
    else if number / mask = 0 then findMask number (mask / 10) fuel
    else some mask

/-- The digit-emission loop of `lcd_writeDec`. -/
def writeDigits (s : LcdState) (number mask : Nat) : LcdState :=
  if h : mask = 0 then s
  else writeDigits (lcd_writeChar s (0x30 + number / mask)) (number % mask) (mask / 10)
termination_by mask
decreasing_by exact Nat.div_lt_self (Nat.pos_of_ne_zero h) (by decide)

/-- `lcd_writeDec(number)` (`number : uint16_t`).  `fuel` bounds the
leading-zero scan; `none` means the scan did not complete (see
`findMask`). -/
def lcd_writeDec (fuel : Nat) (s : LcdState) (number : Nat) : Option LcdState :=
  let s := if number = 0 then lcd_writeChar s (0x30) else s
  match findMask number 10000 fuel with
  | none => none
  | some mask => some (writeDigits s number mask)

/-!
## Reference UTF-8 encoder and dispatch traces

`utf8Encode` is the spec side of the round-trip claim: the standard UTF-8
encoding of a code point, following the spec's description of the reference
encoder.  `feedDispatches` records, for each byte fed to the decoder, the
code point dispatched by that byte (`none` on the keep-buffering path).
-/

/-- Reference UTF-8 encoder (spec side of the round-trip claim). -/
def utf8Encode (c : Nat) : List Nat :=
  if c < 0x80 then [c]
  else if c < 0x800 then
    [0xC0 ||| (c >>> 6), 0x80 ||| (c &&& 0x3F)]
  else if c < 0x10000 then
    [0xE0 ||| (c >>> 12), 0x80 ||| ((c >>> 6) &&& 0x3F), 0x80 ||| (c &&& 0x3F)]
  else
    [0xF0 ||| (c >>> 18), 0x80 ||| ((c >>> 12) &&& 0x3F),
      0x80 ||| ((c >>> 6) &&& 0x3F), 0x80 ||| (c &&& 0x3F)]

/-- Feed a byte list to the decoder, recording the dispatch made (or not
made) by each byte. -/
def feedDispatches (utf8Buffer : Nat) : List Nat → List (Option Nat)
  | [] => []
  | b :: rest =>
    let r := utf8Step utf8Buffer b
    r.2 :: feedDispatches r.1 rest

/-!
## Bit-arithmetic toolkit

The decoder works on a 32-bit accumulator with bit masks.  The following
lemmas convert `&&&`, `|||`, `<<<`, `>>>` on byte-structured values into
`/`, `%`, `*` arithmetic, which `omega` can then discharge.
-/

theorem testBit_mul_add_low (k a b j : Nat) (hb : b < 2 ^ k) (hj : j < k) :
    (2 ^ k * a + b).testBit j = b.testBit j := by
  rw [Nat.testBit_to_div_mod, Nat.testBit_to_div_mod]
  have hkj : (2:Nat) ^ k = 2 ^ j * 2 ^ (k - j) := by
    rw [← Nat.pow_add]; congr 1; omega
  rw [hkj, Nat.mul_assoc, Nat.mul_add_div (Nat.two_pow_pos j)]
  have hsplit : (2:Nat) ^ (k - j) = 2 * 2 ^ (k - j - 1) := by
    rw [← Nat.pow_succ']; congr 1; omega
  rw [hsplit, Nat.mul_assoc, Nat.mul_add_mod]

theorem testBit_mul_add_high (k a b j : Nat) (hb : b < 2 ^ k) (hj : k ≤ j) :
    (2 ^ k * a + b).testBit j = a.testBit (j - k) := by
  rw [Nat.testBit_to_div_mod, Nat.testBit_to_div_mod]
  have hkj : (2:Nat) ^ j = 2 ^ k * 2 ^ (j - k) := by
    rw [← Nat.pow_add]; congr 1; omega
  rw [hkj, ← Nat.div_div_eq_div_mul, Nat.mul_add_div (Nat.two_pow_pos k),
    Nat.div_eq_of_lt hb, Nat.add_zero]

theorem lor_eq_add (k a b : Nat) (ha : a % 2 ^ k = 0) (hb : b < 2 ^ k) :
    a ||| b = a + b := by
  obtain ⟨c, hc⟩ := Nat.dvd_of_mod_eq_zero ha
  subst hc
  apply Nat.eq_of_testBit_eq
  intro j
  rcases Nat.lt_or_ge j k with hj | hj
  · have h0 : (2 ^ k * c).testBit j = false := by
      have := testBit_mul_add_low k c 0 j (Nat.two_pow_pos k) hj
      simpa using this
    rw [Nat.testBit_or, h0, testBit_mul_add_low k c b j hb hj, Bool.false_or]
  · have hbj : b.testBit j = false :=
      Nat.testBit_lt_two_pow (Nat.lt_of_lt_of_le hb (Nat.pow_le_pow_right (by decide) hj))
    have h0 : (2 ^ k * c).testBit j = c.testBit (j - k) := by
      have := testBit_mul_add_high k c 0 j (Nat.two_pow_pos k) hj
      simpa using this
    rw [Nat.testBit_or, h0, testBit_mul_add_high k c b j hb hj, hbj, Bool.or_false]

theorem land_split (k x y m n : Nat) (hy : y < 2 ^ k) (hn : n < 2 ^ k) :
    (2 ^ k * x + y) &&& (2 ^ k * m + n) = 2 ^ k * (x &&& m) + (y &&& n) := by
  have hyn : y &&& n < 2 ^ k := Nat.and_lt_two_pow y hn
  apply Nat.eq_of_testBit_eq
  intro j
  rcases Nat.lt_or_ge j k with hj | hj
  · rw [Nat.testBit_and, testBit_mul_add_low k x y j hy hj,
      testBit_mul_add_low k m n j hn hj,
      testBit_mul_add_low k (x &&& m) (y &&& n) j hyn hj, Nat.testBit_and]
  · rw [Nat.testBit_and, testBit_mul_add_high k x y j hy hj,
      testBit_mul_add_high k m n j hn hj,
      testBit_mul_add_high k (x &&& m) (y &&& n) j hyn hj, Nat.testBit_and]

theorem land_block (l h x : Nat) (hlh : l ≤ h) :
    x &&& (2 ^ h - 2 ^ l) = x % 2 ^ h / 2 ^ l * 2 ^ l := by
  have hmask : (2:Nat) ^ h - 2 ^ l = 2 ^ l * (2 ^ (h - l) - 1) + 0 := by
    rw [Nat.add_zero, Nat.mul_sub_left_distrib, Nat.mul_one, ← Nat.pow_add]
    congr 2
    omega
  have hrhs : x % 2 ^ h / 2 ^ l * 2 ^ l = 2 ^ l * (x % 2 ^ h / 2 ^ l) + 0 := by
    rw [Nat.add_zero, Nat.mul_comm]
  apply Nat.eq_of_testBit_eq
  intro j
  rcases Nat.lt_or_ge j l with hj | hj
  · rw [Nat.testBit_and, hmask, hrhs,
      testBit_mul_add_low l (2 ^ (h - l) - 1) 0 j (Nat.two_pow_pos l) hj,
      testBit_mul_add_low l (x % 2 ^ h / 2 ^ l) 0 j (Nat.two_pow_pos l) hj]
    simp
  · rw [Nat.testBit_and, hmask, hrhs,
      testBit_mul_add_high l (2 ^ (h - l) - 1) 0 j (Nat.two_pow_pos l) hj,
      testBit_mul_add_high l (x % 2 ^ h / 2 ^ l) 0 j (Nat.two_pow_pos l) hj,
      Nat.testBit_two_pow_sub_one]
    have hdiv : x % 2 ^ h / 2 ^ l = (x % 2 ^ h) >>> l := by
      rw [Nat.shiftRight_eq_div_pow]
    rw [hdiv, Nat.testBit_shiftRight, Nat.testBit_mod_two_pow]
    have hlj : l + (j - l) = j := by omega
    rw [hlj]
    by_cases hjh : j < h
    · have h1 : j - l < h - l := by omega
      simp [hjh, h1, Bool.and_comm]
    · have h1 : ¬(j - l < h - l) := by omega
      simp [hjh, h1]

/-- `x &&& 0xf8000000` in `/ %` form. -/
theorem land_hi5 (x : Nat) : x &&& 0xf8000000 = x % 4294967296 / 134217728 * 134217728 := by
  have h := land_block 27 32 x (by norm_num)
  norm_num at h
  exact h

/-- `x &&& 0xfff00000` in `/ %` form. -/
theorem land_hi12 (x : Nat) : x &&& 0xfff00000 = x % 4294967296 / 1048576 * 1048576 := by
  have h := land_block 20 32 x (by norm_num)
  norm_num at h
  exact h

/-- `x &&& 0xffffe000` in `/ %` form. -/
theorem land_hi19 (x : Nat) : x &&& 0xffffe000 = x % 4294967296 / 8192 * 8192 := by
  have h := land_block 13 32 x (by norm_num)
  norm_num at h
  exact h

/-- `x &&& 0xffffff80` in `/ %` form. -/
theorem land_hi25 (x : Nat) : x &&& 0xffffff80 = x % 4294967296 / 128 * 128 := by
  have h := land_block 7 32 x (by norm_num)
  norm_num at h
  exact h

/-- `x &&& 0x07000000` in `/ %` form. -/
theorem land_plane (x : Nat) : x &&& 0x07000000 = x % 134217728 / 16777216 * 16777216 := by
  have h := land_block 24 27 x (by norm_num)
  norm_num at h
  exact h

/-- `x &&& 0x003f0000` in `/ %` form. -/
theorem land_cont16 (x : Nat) : x &&& 0x003f0000 = x % 4194304 / 65536 * 65536 := by
  have h := land_block 16 22 x (by norm_num)
  norm_num at h
  exact h

/-- `x &&& 0x000f0000` in `/ %` form. -/
theorem land_nib16 (x : Nat) : x &&& 0x000f0000 = x % 1048576 / 65536 * 65536 := by
  have h := land_block 16 20 x (by norm_num)
  norm_num at h
  exact h

/-- `x &&& 0x00003f00` in `/ %` form. -/
theorem land_cont8 (x : Nat) : x &&& 0x00003f00 = x % 16384 / 256 * 256 := by
  have h := land_block 8 14 x (by norm_num)
  norm_num at h
  exact h

/-- `x &&& 0x00001f00` in `/ %` form. -/
theorem land_five8 (x : Nat) : x &&& 0x00001f00 = x % 8192 / 256 * 256 := by
  have h := land_block 8 13 x (by norm_num)
  norm_num at h
  exact h

/-- `x &&& 0x0000003f` in `/ %` form. -/
theorem land_low6 (x : Nat) : x &&& 0x0000003f = x % 64 := by
  have h := land_block 0 6 x (by norm_num)
  norm_num at h
  exact h

/-- `x &&& 0x000000c0` in `/ %` form. -/
theorem land_c0 (x : Nat) : x &&& 0x000000c0 = x % 256 / 64 * 64 := by
  have h := land_block 6 8 x (by norm_num)
  norm_num at h
  exact h

/-- Shifting a byte into the 32-bit accumulator, arithmetically. -/
theorem bufShift (u c : Nat) :
    ((u <<< 8) % 2 ^ 32) ||| (c % 256) = 256 * (u % 16777216) + c % 256 := by
  have h1 : (u <<< 8) % 2 ^ 32 = u % 16777216 * 256 := by
    rw [Nat.shiftLeft_eq]
    have h2 : (2:Nat) ^ 32 = 16777216 * 256 := by norm_num
    have h3 : (2:Nat) ^ 8 = 256 := by norm_num
    rw [h2, h3, Nat.mul_mod_mul_right]
  rw [h1, lor_eq_add 8 (u % 16777216 * 256) (c % 256) (by simp) (by omega)]
  ring

theorem land_c0c0 (a b c : Nat) (hb : b < 256) (hc : c < 256) :
    (65536 * a + (256 * b + c)) &&& 0x0000c0c0 = 256 * (b / 64 * 64) + c / 64 * 64 := by
  have h1 := land_split 16 a (256 * b + c) 0 0xc0c0 (by omega) (by omega)
  norm_num at h1
  have h2 := land_split 8 b c 0xc0 0xc0 hc (by omega)
  norm_num at h2
  rw [h1, h2, land_c0 b, land_c0 c, Nat.mod_eq_of_lt hb, Nat.mod_eq_of_lt hc]

theorem land_c0c0c0 (a b c d : Nat) (hb : b < 256) (hc : c < 256) (hd : d < 256) :
    (16777216 * a + (65536 * b + (256 * c + d))) &&& 0x00c0c0c0
      = 65536 * (b / 64 * 64) + (256 * (c / 64 * 64) + d / 64 * 64) := by
  have h1 := land_split 24 a (65536 * b + (256 * c + d)) 0 0xc0c0c0 (by omega) (by omega)
  norm_num at h1
  rw [h1]
  have h2 := land_split 16 b (256 * c + d) 0xc0 0xc0c0 (by omega) (by omega)
  norm_num at h2
  rw [h2]
  have h3 := land_split 8 c d 0xc0 0xc0 hd (by omega)
  norm_num at h3
  rw [h3, land_c0 b, land_c0 c, land_c0 d, Nat.mod_eq_of_lt hb, Nat.mod_eq_of_lt hc,
    Nat.mod_eq_of_lt hd]

/-- The OR-assembly of the 3-byte decode, arithmetically. -/
theorem decode3_or (x : Nat) :
    ((x &&& 0x000f0000) >>> 4) ||| ((x &&& 0x00003f00) >>> 2) ||| (x &&& 0x0000003f)
      = x % 1048576 / 65536 * 4096 + x % 16384 / 256 * 64 + x % 64 := by
  rw [land_nib16, land_cont8, land_low6]
  simp only [Nat.shiftRight_eq_div_pow]
  rw [show (2:Nat) ^ 4 = 16 from by norm_num, show (2:Nat) ^ 2 = 4 from by norm_num]
  rw [lor_eq_add 12 (x % 1048576 / 65536 * 65536 / 16) (x % 16384 / 256 * 256 / 4)
    (by omega) (by omega)]
  rw [lor_eq_add 6 (x % 1048576 / 65536 * 65536 / 16 + x % 16384 / 256 * 256 / 4) (x % 64)
    (by omega) (by omega)]
  omega

/-- The OR-assembly of the 4-byte decode, arithmetically. -/
theorem decode4_or (x : Nat) :
    ((x &&& 0x07000000) >>> 6) ||| ((x &&& 0x003f0000) >>> 4)
      ||| ((x &&& 0x00003f00) >>> 2) ||| (x &&& 0x0000003f)
      = x % 134217728 / 16777216 * 262144 + x % 4194304 / 65536 * 4096
        + x % 16384 / 256 * 64 + x % 64 := by
  rw [land_plane, land_cont16, land_cont8, land_low6]
  simp only [Nat.shiftRight_eq_div_pow]
  rw [show (2:Nat) ^ 6 = 64 from by norm_num, show (2:Nat) ^ 4 = 16 from by norm_num,
    show (2:Nat) ^ 2 = 4 from by norm_num]
  rw [lor_eq_add 18 (x % 134217728 / 16777216 * 16777216 / 64) (x % 4194304 / 65536 * 65536 / 16)
    (by omega) (by omega)]
  rw [lor_eq_add 12
    (x % 134217728 / 16777216 * 16777216 / 64 + x % 4194304 / 65536 * 65536 / 16)
    (x % 16384 / 256 * 256 / 4) (by omega) (by omega)]
  rw [lor_eq_add 6
    (x % 134217728 / 16777216 * 16777216 / 64 + x % 4194304 / 65536 * 65536 / 16
      + x % 16384 / 256 * 256 / 4) (x % 64) (by omega) (by omega)]
  omega

/-- A fresh ASCII byte decodes immediately. -/
theorem utf8Step_ascii (b : Nat) (hb : b < 0x80) : utf8Step 0 b = (0, some b) := by
  simp only [utf8Step, bufShift]
  have hbuf : 256 * (0 % 16777216) + b % 256 = b := by omega
  rw [hbuf, land_hi5, land_hi12, land_hi19, land_hi25]
  rw [if_neg (by omega), if_neg (by omega), if_neg (by omega), if_pos (by omega)]

/-- A fresh non-ASCII byte is buffered unchanged: this covers the 2-, 3- and
4-byte lead bytes as well as stray continuation bytes and the invalid lead
bytes `0xF8`–`0xFF`. -/
theorem utf8Step_buffer1 (b : Nat) (h1 : 0x80 ≤ b) (h2 : b < 0x100) :
    utf8Step 0 b = (b, none) := by
  simp only [utf8Step, bufShift]
  have hbuf : 256 * (0 % 16777216) + b % 256 = b := by omega
  rw [hbuf, land_hi5, land_hi12, land_hi19, land_hi25]
  rw [if_neg (by omega), if_neg (by omega), if_neg (by omega), if_neg (by omega)]

/-- Second byte after a 2-byte lead, valid continuation: decode. -/
theorem utf8Step_2ok (bl c : Nat) (h1 : 0xC0 ≤ bl) (h2 : bl < 0xE0) (hc : c < 256)
    (hcont : c / 64 = 2) :
    utf8Step bl c = (0, some ((bl - 0xC0) * 64 + c % 64)) := by
  simp only [utf8Step, bufShift]
  rw [Nat.mod_eq_of_lt (show bl < 16777216 by omega), Nat.mod_eq_of_lt hc]
  rw [land_hi5, land_hi12, land_hi19, land_c0, land_five8, land_low6]
  rw [if_neg (by omega), if_neg (by omega), if_pos (by omega), if_pos (by omega)]
  rw [Nat.shiftRight_eq_div_pow]
  norm_num
  rw [lor_eq_add 6 ((256 * bl + c) % 8192 / 256 * 256 / 4) ((256 * bl + c) % 64)
    (by omega) (by omega)]
  omega

/-- Second byte after a 2-byte lead, invalid continuation: replacement. -/
theorem utf8Step_2bad (bl c : Nat) (h1 : 0xC0 ≤ bl) (h2 : bl < 0xE0) (hc : c < 256)
    (hcont : c / 64 ≠ 2) :
    utf8Step bl c = (0, some 0xfffd) := by
  simp only [utf8Step, bufShift]
  rw [Nat.mod_eq_of_lt (show bl < 16777216 by omega), Nat.mod_eq_of_lt hc]
  rw [land_hi5, land_hi12, land_hi19, land_c0]
  rw [if_neg (by omega), if_neg (by omega), if_pos (by omega), if_neg (by omega)]

/-- Second byte after a 3- or 4-byte lead: keep buffering, whatever it is. -/
theorem utf8Step_buffer2 (bl c : Nat) (h1 : 0xE0 ≤ bl) (h2 : bl < 0xF8) (hc : c < 256) :
    utf8Step bl c = (256 * bl + c, none) := by
  simp only [utf8Step, bufShift]
  rw [Nat.mod_eq_of_lt (show bl < 16777216 by omega), Nat.mod_eq_of_lt hc]
  rw [land_hi5, land_hi12, land_hi19, land_hi25]
  rw [if_neg (by omega), if_neg (by omega), if_neg (by omega), if_neg (by omega)]

/-- Third byte after a 4-byte lead: keep buffering, whatever it is. -/
theorem utf8Step_buffer3 (bl c1 c2 : Nat) (h1 : 0xF0 ≤ bl) (h2 : bl < 0xF8)
    (hc1 : c1 < 256) (hc2 : c2 < 256) :
    utf8Step (256 * bl + c1) c2 = (256 * (256 * bl + c1) + c2, none) := by
  simp only [utf8Step, bufShift]
  rw [Nat.mod_eq_of_lt (show 256 * bl + c1 < 16777216 by omega), Nat.mod_eq_of_lt hc2]
  rw [land_hi5, land_hi12, land_hi19, land_hi25]
  rw [if_neg (by omega), if_neg (by omega), if_neg (by omega), if_neg (by omega)]

/-- Third byte after a 3-byte lead, both continuations valid: decode. -/
theorem utf8Step_3ok (bl c1 c2 : Nat) (h1 : 0xE0 ≤ bl) (h2 : bl < 0xF0)
    (hc1 : c1 < 256) (hc2 : c2 < 256) (k1 : c1 / 64 = 2) (k2 : c2 / 64 = 2) :
    utf8Step (256 * bl + c1) c2
      = (0, some ((bl - 0xE0) * 4096 + c1 % 64 * 64 + c2 % 64)) := by
  simp only [utf8Step, bufShift]
  have hbuf : 256 * ((256 * bl + c1) % 16777216) + c2 % 256
      = 65536 * bl + (256 * c1 + c2) := by omega
  rw [hbuf, land_hi5, land_hi12, land_c0c0 bl c1 c2 hc1 hc2]
  rw [if_neg (by omega), if_pos (by omega), if_pos (by omega)]
  rw [decode3_or]
  norm_num
  omega

/-- Third byte after a 3-byte lead, a continuation invalid: replacement. -/
theorem utf8Step_3bad (bl c1 c2 : Nat) (h1 : 0xE0 ≤ bl) (h2 : bl < 0xF0)
    (hc1 : c1 < 256) (hc2 : c2 < 256) (hbad : ¬(c1 / 64 = 2 ∧ c2 / 64 = 2)) :
    utf8Step (256 * bl + c1) c2 = (0, some 0xfffd) := by
  simp only [utf8Step, bufShift]
  have hbuf : 256 * ((256 * bl + c1) % 16777216) + c2 % 256
      = 65536 * bl + (256 * c1 + c2) := by omega
  rw [hbuf, land_hi5, land_hi12, land_c0c0 bl c1 c2 hc1 hc2]
  rw [if_neg (by omega), if_pos (by omega), if_neg (by omega)]

/-- Fourth byte after a 4-byte lead, all continuations valid: decode. -/
theorem utf8Step_4ok (bl c1 c2 c3 : Nat) (h1 : 0xF0 ≤ bl) (h2 : bl < 0xF8)
    (hc1 : c1 < 256) (hc2 : c2 < 256) (hc3 : c3 < 256)
    (k1 : c1 / 64 = 2) (k2 : c2 / 64 = 2) (k3 : c3 / 64 = 2) :
    utf8Step (256 * (256 * bl + c1) + c2) c3
      = (0, some ((bl - 0xF0) * 262144 + c1 % 64 * 4096 + c2 % 64 * 64 + c3 % 64)) := by
  simp only [utf8Step, bufShift]
  have hbuf : 256 * ((256 * (256 * bl + c1) + c2) % 16777216) + c3 % 256
      = 16777216 * bl + (65536 * c1 + (256 * c2 + c3)) := by omega
  rw [hbuf, land_hi5, land_c0c0c0 bl c1 c2 c3 hc1 hc2 hc3]
  rw [if_pos (by omega), if_pos (by omega)]
  rw [decode4_or]
  norm_num
  omega

/-- Fourth byte after a 4-byte lead, a continuation invalid: replacement. -/
theorem utf8Step_4bad (bl c1 c2 c3 : Nat) (h1 : 0xF0 ≤ bl) (h2 : bl < 0xF8)
    (hc1 : c1 < 256) (hc2 : c2 < 256) (hc3 : c3 < 256)
    (hbad : ¬(c1 / 64 = 2 ∧ c2 / 64 = 2 ∧ c3 / 64 = 2)) :
    utf8Step (256 * (256 * bl + c1) + c2) c3 = (0, some 0xfffd) := by
  simp only [utf8Step, bufShift]
  have hbuf : 256 * ((256 * (256 * bl + c1) + c2) % 16777216) + c3 % 256
      = 16777216 * bl + (65536 * c1 + (256 * c2 + c3)) := by omega
  rw [hbuf, land_hi5, land_c0c0c0 bl c1 c2 c3 hc1 hc2 hc3]
  rw [if_pos (by omega), if_neg (by omega)]

/-- Round trip, 1-byte range. -/
theorem utf8RoundTrip1 (c : Nat) (h : c < 0x80) :
    feedDispatches 0 (utf8Encode c) = [some c] := by
  have e1 : utf8Encode c = [c] := by
    unfold utf8Encode
    rw [if_pos (by omega)]
  rw [e1]
  have s1 := utf8Step_ascii c h
  simp only [feedDispatches, s1]

/-- Round trip, 2-byte range. -/
theorem utf8RoundTrip2 (c : Nat) (h1 : 0x80 ≤ c) (h2 : c < 0x800) :
    feedDispatches 0 (utf8Encode c) = [none, some c] := by
  have e1 : utf8Encode c = [192 + c / 64, 128 + c % 64] := by
    unfold utf8Encode
    rw [if_neg (by omega), if_pos (by omega), Nat.shiftRight_eq_div_pow, land_low6,
      show (2:Nat) ^ 6 = 64 from by norm_num,
      lor_eq_add 6 0xC0 (c / 64) (by norm_num) (by omega),
      lor_eq_add 7 0x80 (c % 64) (by norm_num) (by omega)]
  rw [e1]
  have s1 := utf8Step_buffer1 (192 + c / 64) (by omega) (by omega)
  have s2 := utf8Step_2ok (192 + c / 64) (128 + c % 64) (by omega) (by omega) (by omega)
    (by omega)
  simp only [feedDispatches, s1, s2, List.cons.injEq, Option.some.injEq, and_true, true_and]
  omega

/-- Round trip, 3-byte range. -/
theorem utf8RoundTrip3 (c : Nat) (h1 : 0x800 ≤ c) (h2 : c < 0x10000) :
    feedDispatches 0 (utf8Encode c) = [none, none, some c] := by
  have e1 : utf8Encode c = [224 + c / 4096, 128 + c / 64 % 64, 128 + c % 64] := by
    unfold utf8Encode
    rw [if_neg (by omega), if_neg (by omega), if_pos (by omega),
      Nat.shiftRight_eq_div_pow, Nat.shiftRight_eq_div_pow, land_low6, land_low6,
      show (2:Nat) ^ 6 = 64 from by norm_num, show (2:Nat) ^ 12 = 4096 from by norm_num,
      lor_eq_add 4 0xE0 (c / 4096) (by norm_num) (by omega),
      lor_eq_add 7 0x80 (c / 64 % 64) (by norm_num) (by omega),
      lor_eq_add 7 0x80 (c % 64) (by norm_num) (by omega)]
  rw [e1]
  have s1 := utf8Step_buffer1 (224 + c / 4096) (by omega) (by omega)
  have s2 := utf8Step_buffer2 (224 + c / 4096) (128 + c / 64 % 64) (by omega) (by omega)
    (by omega)
  have s3 := utf8Step_3ok (224 + c / 4096) (128 + c / 64 % 64) (128 + c % 64)
    (by omega) (by omega) (by omega) (by omega) (by omega) (by omega)
  simp only [feedDispatches, s1, s2, s3, List.cons.injEq, Option.some.injEq, and_true, true_and]
  omega

/-- Round trip, 4-byte range. -/
theorem utf8RoundTrip4 (c : Nat) (h1 : 0x10000 ≤ c) (h2 : c < 0x110000) :
    feedDispatches 0 (utf8Encode c) = [none, none, none, some c] := by
  have e1 : utf8Encode c
      = [240 + c / 262144, 128 + c / 4096 % 64, 128 + c / 64 % 64, 128 + c % 64] := by
    unfold utf8Encode
    rw [if_neg (by omega), if_neg (by omega), if_neg (by omega),
      Nat.shiftRight_eq_div_pow, Nat.shiftRight_eq_div_pow, Nat.shiftRight_eq_div_pow,
      land_low6, land_low6, land_low6,
      show (2:Nat) ^ 6 = 64 from by norm_num, show (2:Nat) ^ 12 = 4096 from by norm_num,
      show (2:Nat) ^ 18 = 262144 from by norm_num,
      lor_eq_add 3 0xF0 (c / 262144) (by norm_num) (by omega),
      lor_eq_add 7 0x80 (c / 4096 % 64) (by norm_num) (by omega),
      lor_eq_add 7 0x80 (c / 64 % 64) (by norm_num) (by omega),
      lor_eq_add 7 0x80 (c % 64) (by norm_num) (by omega)]
  rw [e1]
  have s1 := utf8Step_buffer1 (240 + c / 262144) (by omega) (by omega)
  have s2 := utf8Step_buffer2 (240 + c / 262144) (128 + c / 4096 % 64) (by omega) (by omega)
    (by omega)
  have s3 := utf8Step_buffer3 (240 + c / 262144) (128 + c / 4096 % 64) (128 + c / 64 % 64)
    (by omega) (by omega) (by omega) (by omega)
  have s4 := utf8Step_4ok (240 + c / 262144) (128 + c / 4096 % 64) (128 + c / 64 % 64)
    (128 + c % 64) (by omega) (by omega) (by omega) (by omega) (by omega) (by omega)
    (by omega) (by omega)
  simp only [feedDispatches, s1, s2, s3, s4, List.cons.injEq, Option.some.injEq, and_true,
    true_and]
  omega

/-- `(a <<< 4) ||| b` with `b` a column offset is plain arithmetic. -/
theorem lor16 (a b : Nat) (hb : b < 16) : (a <<< 4) ||| b = 16 * a + b := by
  rw [Nat.shiftLeft_eq, show (2:Nat) ^ 4 = 16 from by norm_num,
    lor_eq_add 4 (a * 16) b (by omega) (by omega)]
  ring

/-- `|||` distributes over byte-aligned splits. -/
theorem lor_split (k x y m n : Nat) (hy : y < 2 ^ k) (hn : n < 2 ^ k) :
    (2 ^ k * x + y) ||| (2 ^ k * m + n) = 2 ^ k * (x ||| m) + (y ||| n) := by
  have hyn : y ||| n < 2 ^ k := Nat.or_lt_two_pow hy hn
  apply Nat.eq_of_testBit_eq
  intro j
  rcases Nat.lt_or_ge j k with hj | hj
  · rw [Nat.testBit_or, testBit_mul_add_low k x y j hy hj,
      testBit_mul_add_low k m n j hn hj,
      testBit_mul_add_low k (x ||| m) (y ||| n) j hyn hj, Nat.testBit_or]
  · rw [Nat.testBit_or, testBit_mul_add_high k x y j hy hj,
      testBit_mul_add_high k m n j hn hj,
      testBit_mul_add_high k (x ||| m) (y ||| n) j hyn hj, Nat.testBit_or]

/-- The mask loop of `findMask` never produces a mask for input 0: it walks
10000, 1000, 100, 10, 1 and then reaches divisor 0. -/
theorem findMask_zero (fuel mask : Nat) : findMask 0 mask fuel = none := by
  induction fuel generalizing mask with
  | zero => rfl
  | succ n ih =>
    by_cases h : mask = 0
    · simp [findMask, h]
    · simp [findMask, h, Nat.zero_div, ih]

/-- C7: false for the code as written — `lcd_writeDec(0)` writes the digit
`'0'` but then falls into the leading-zero scan, whose loop condition
eventually divides by zero (`mask = 0`), so the scan never completes: the
call does not terminate normally, and not every division it evaluates has a
nonzero divisor.  (Compare `lcd_writeHex`, which guards the same case with
an `else`.) -/
theorem writeDec_zero_divides_by_zero (fuel : Nat) (s : LcdState) :
    lcd_writeDec fuel s 0 = none := by
  simp [lcd_writeDec, findMask_zero]

/-- C1: false for the code as written — from the initial state, writing two
newline characters legally drives `lcdCursor` to the sentinel 32, and one
further `lcd_forward()` then increments it to 33, outside the documented
range [0,32] (`lcd_forward` only wraps at 31). -/
theorem forward_at_sentinel_exceeds_range :
    (lcd_writeChar (lcd_writeChar lcdInitState 10) 10).lcdCursor = 32
    ∧ (lcd_forward (lcd_writeChar (lcd_writeChar lcdInitState 10) 10)).lcdCursor = 33 := by
  decide

/-- C2: false for the code as written — `lcd_move` computes
`newRow = (row + (Δrow + 1)) & 1` and `newCol = (col + (Δcol + 15)) & 15`,
adding 1 and 15 instead of the moduli 2 and 16.  From position 0 (row 1,
column 1), `lcd_move(1, 0)` yields position 15 (row 1, column 16) instead
of position 16 (row 2, column 1), and applying `lcd_move(1, 0)` twice
yields position 14, not the starting position. -/
theorem move_wraparound_off_by_one :
    (lcd_move lcdInitState 1 0).lcdCursor = 15
    ∧ (lcd_move (lcd_move lcdInitState 1 0) 1 0).lcdCursor = 14 := by
  decide

/-- C8: `lcd_init` drives exactly the documented bring-up transfer sequence
— nibbles 0b0011, 0b0011, 0b0011, 0b0010, then the five command bytes
function set 0b00101000, display off 0b00001000, clear display 0b00000001,
entry mode 0b00000110, display on 0b00001100, each with its fixed delay —
before the two custom-glyph registrations (tilde in slot 1, backslash in
slot 2). -/
theorem lcd_init_transfer_sequence :
    lcd_init.events =
      [BusEv.wMs 15,
       BusEv.nib 0 0b0011, BusEv.wMs 5,
       BusEv.nib 0 0b0011, BusEv.wUs 100,
       BusEv.nib 0 0b0011, BusEv.wUs 100,
       BusEv.nib 0 0b0010, BusEv.wUs 42,
       BusEv.byte 0 0b00101000 42,
       BusEv.byte 0 0b00001000 42,
       BusEv.byte 0 0b00000001 1640,
       BusEv.byte 0 0b00000110 42,
       BusEv.byte 0 0b00001100 42]
      ++ ([BusEv.byte 0 0x48 42,
           BusEv.byte 1 0x00 46, BusEv.byte 1 0x08 46,
           BusEv.byte 1 0x15 46, BusEv.byte 1 0x02 46,
           BusEv.byte 1 0x00 46, BusEv.byte 1 0x00 46,
           BusEv.byte 1 0x00 46, BusEv.byte 1 0x00 46,
           BusEv.byte 0 0x80 42]
        ++ [BusEv.byte 0 0x50 42,
            BusEv.byte 1 0x00 46, BusEv.byte 1 0x10 46,
            BusEv.byte 1 0x08 46, BusEv.byte 1 0x04 46,
            BusEv.byte 1 0x02 46, BusEv.byte 1 0x01 46,
            BusEv.byte 1 0x00 46, BusEv.byte 1 0x00 46,
            BusEv.byte 0 0x80 42]) := by
  decide

/-- C9: `lcd_goto` silently clamps the row to [1,2] and the column to
[1,16] and sets the cursor to `(row-1)*16 + (column-1)` of the clamped
values; in particular `goto(3,20)` is the same call as `goto(2,16)`. -/
theorem goto_clamps_and_position (s : LcdState) (row column : Nat) :
    (lcd_goto s row column).lcdCursor
      = (min 2 (max 1 row) - 1) * 16 + (min 16 (max 1 column) - 1)
    ∧ lcd_goto s 3 20 = lcd_goto s 2 16 := by
  constructor
  · simp only [lcd_goto, updateCursor, sendByteEv, emit]
    split_ifs <;> rw [lor16] <;> omega
  · simp [lcd_goto]

/-- Full bus trace of `lcd_registerCustomChar`: the "set CGRAM address"
command, the 8 bitmap bytes (low byte first), then "set DDRAM address" for
the current cursor. -/
theorem registerCustomChar_events (s : LcdState) (addr chr : Nat) :
    (lcd_registerCustomChar s addr chr).events
      = s.events
        ++ [BusEv.byte 0 ((0b01000000 ||| (8 * addr)) % 256) 42,
            BusEv.byte 1 (chr % 256) 46,
            BusEv.byte 1 (chr >>> 8 % 256) 46,
            BusEv.byte 1 (chr >>> 8 >>> 8 % 256) 46,
            BusEv.byte 1 (chr >>> 8 >>> 8 >>> 8 % 256) 46,
            BusEv.byte 1 (chr >>> 8 >>> 8 >>> 8 >>> 8 % 256) 46,
            BusEv.byte 1 (chr >>> 8 >>> 8 >>> 8 >>> 8 >>> 8 % 256) 46,
            BusEv.byte 1 (chr >>> 8 >>> 8 >>> 8 >>> 8 >>> 8 >>> 8 % 256) 46,
            BusEv.byte 1 (chr >>> 8 >>> 8 >>> 8 >>> 8 >>> 8 >>> 8 >>> 8 % 256) 46,
            BusEv.byte 0 (0b10000000 ||| ddramAddress s.lcdCursor) 42] := by
  show (updateCursor (cgramWriteLoop (sendByteEv s 0 _ 42) chr 8)).events = _
  simp [cgramWriteLoop, updateCursor, sendByteEv, emit, lcd_registerCustomChar]

/-- C10: `lcd_registerCustomChar` never touches `lcdCursor`, and after the
"set CGRAM address" command and the 8 bitmap data bytes it reissues the
"set DDRAM address" command for the cursor position held before the call. -/
theorem registerCustomChar_preserves_cursor (s : LcdState) (addr chr : Nat) :
    (lcd_registerCustomChar s addr chr).lcdCursor = s.lcdCursor
    ∧ (lcd_registerCustomChar s addr chr).events
      = s.events
        ++ [BusEv.byte 0 ((0b01000000 ||| (8 * addr)) % 256) 42,
            BusEv.byte 1 (chr % 256) 46,
            BusEv.byte 1 (chr >>> 8 % 256) 46,
            BusEv.byte 1 (chr >>> 8 >>> 8 % 256) 46,
            BusEv.byte 1 (chr >>> 8 >>> 8 >>> 8 % 256) 46,
            BusEv.byte 1 (chr >>> 8 >>> 8 >>> 8 >>> 8 % 256) 46,
            BusEv.byte 1 (chr >>> 8 >>> 8 >>> 8 >>> 8 >>> 8 % 256) 46,
            BusEv.byte 1 (chr >>> 8 >>> 8 >>> 8 >>> 8 >>> 8 >>> 8 % 256) 46,
            BusEv.byte 1 (chr >>> 8 >>> 8 >>> 8 >>> 8 >>> 8 >>> 8 >>> 8 % 256) 46,
            BusEv.byte 0 (0b10000000 ||| ddramAddress s.lcdCursor) 42] := by
  constructor
  · rfl
  · exact registerCustomChar_events s addr chr

/-- `0x40 ||| 8*r` for a masked slot index, by enumeration. -/
theorem lor40_slot : ∀ r < 16, 64 ||| 8 * r = 64 + 8 * (r % 8) := by decide

/-- The "set CGRAM address" operand actually transmitted, for addresses
whose residue modulo 32 is below 16. -/
theorem cgram_operand (addr : Nat) (h : addr % 32 < 16) :
    (0b01000000 ||| (8 * addr)) % 256 = 64 + 8 * (addr % 8) := by
  have key := lor_split 8 0 64 (addr / 32) (8 * (addr % 32)) (by omega) (by omega)
  norm_num at key
  have h2 : 8 * addr = 256 * (addr / 32) + 8 * (addr % 32) := by omega
  rw [show (0b01000000 : Nat) = 64 from rfl, h2, key, lor40_slot (addr % 32) h]
  omega

/-- C6 counterexample: for `addr = 16` the command byte issued by
`lcd_registerCustomChar` is `0xC0 = 0b11000000`, a "set DDRAM address"
encoding, not the "set CGRAM address" command for slot `16 % 8 = 0`
(which would be `0x40`). -/
theorem registerCustomChar_addr16_not_cgram :
    (lcd_registerCustomChar lcdInitState 16 0).events.head?
      = some (BusEv.byte 0 0xC0 42)
    ∧ 0xC0 / 64 ≠ 1 := by
  decide

/-- C6 amended: for every address with `addr % 32 < 16` (in particular all
in-range addresses 0–7), the command issued by `lcd_registerCustomChar` is
the "set CGRAM address" encoding `0b01AAA000` targeting slot `addr % 8`;
for other addresses the transmitted byte has bit 7 set and is a "set DDRAM
address" command instead. -/
theorem registerCustomChar_masked_slot (s : LcdState) (addr chr : Nat)
    (hs : s.events = []) (h : addr % 32 < 16) :
    (lcd_registerCustomChar s addr chr).events.head?
      = some (BusEv.byte 0 (64 + 8 * (addr % 8)) 42)
    ∧ (64 + 8 * (addr % 8)) / 64 = 1
    ∧ (64 + 8 * (addr % 8)) % 64 / 8 = addr % 8 := by
  refine ⟨?_, by omega, by omega⟩
  rw [registerCustomChar_events s addr chr, hs, cgram_operand addr h]
  rfl

/-- C6 amended, witness at `addr = 9`: the issued command byte is
`0x48`, a "set CGRAM address" command for slot 1. -/
theorem registerCustomChar_masked_slot_witness :
    (lcd_registerCustomChar lcdInitState 9 0).events.head?
      = some (BusEv.byte 0 (64 + 8 * (9 % 8)) 42)
    ∧ (64 + 8 * (9 % 8)) / 64 = 1
    ∧ (64 + 8 * (9 % 8)) % 64 / 8 = 9 % 8 :=
  registerCustomChar_masked_slot lcdInitState 9 0 rfl (by norm_num)

/-- C3: feeding the reference UTF-8 encoding of any code point below
0x110000 into the decoder byte by byte, from an empty accumulator, makes
no dispatch on the proper prefixes and dispatches exactly the encoded code
point on the last byte; the mapped glyph byte is `glyphMap` of that code
point, and in particular the byte stream 0x41, 0xE2 0x86 0x90 (U+2190)
writes glyph 'A' then device byte 0x7F and advances the cursor by 2. -/
theorem utf8_roundtrip_single_dispatch (c : Nat) (hc : c < 0x110000) :
    feedDispatches 0 (utf8Encode c)
      = List.replicate ((utf8Encode c).length - 1) none ++ [some c]
    ∧ (lcd_writeString lcdInitState [0x41, 0xE2, 0x86, 0x90]).events
      = [BusEv.byte 1 (glyphMap 0x41) 46, BusEv.byte 1 (glyphMap 0x2190) 46]
    ∧ glyphMap 0x41 = 0x41 ∧ glyphMap 0x2190 = 0x7f
    ∧ (lcd_writeString lcdInitState [0x41, 0xE2, 0x86, 0x90]).lcdCursor = 2 := by
  refine ⟨?_, by decide, by decide, by decide, by decide⟩
  rcases Nat.lt_or_ge c 0x80 with h | h
  · have hlen : (utf8Encode c).length = 1 := by
      unfold utf8Encode
      rw [if_pos (by omega)]
      rfl
    rw [utf8RoundTrip1 c h, hlen]
    rfl
  rcases Nat.lt_or_ge c 0x800 with h' | h'
  · have hlen : (utf8Encode c).length = 2 := by
      unfold utf8Encode
      rw [if_neg (by omega), if_pos (by omega)]
      rfl
    rw [utf8RoundTrip2 c h h', hlen]
    rfl
  rcases Nat.lt_or_ge c 0x10000 with h'' | h''
  · have hlen : (utf8Encode c).length = 3 := by
      unfold utf8Encode
      rw [if_neg (by omega), if_neg (by omega), if_pos (by omega)]
      rfl
    rw [utf8RoundTrip3 c h' h'', hlen]
    rfl
  · have hlen : (utf8Encode c).length = 4 := by
      unfold utf8Encode
      rw [if_neg (by omega), if_neg (by omega), if_neg (by omega)]
      rfl
    rw [utf8RoundTrip4 c h'' hc, hlen]
    rfl

/-- C3 witness at the code point U+2190 of the spec's scenario. -/
theorem utf8_roundtrip_single_dispatch_witness :
    (0x2190 : Nat) < 0x110000
    ∧ (feedDispatches 0 (utf8Encode 0x2190)
        = List.replicate ((utf8Encode 0x2190).length - 1) none ++ [some 0x2190]
      ∧ (lcd_writeString lcdInitState [0x41, 0xE2, 0x86, 0x90]).events
        = [BusEv.byte 1 (glyphMap 0x41) 46, BusEv.byte 1 (glyphMap 0x2190) 46]
      ∧ glyphMap 0x41 = 0x41 ∧ glyphMap 0x2190 = 0x7f
      ∧ (lcd_writeString lcdInitState [0x41, 0xE2, 0x86, 0x90]).lcdCursor = 2) :=
  ⟨by norm_num, utf8_roundtrip_single_dispatch 0x2190 (by norm_num)⟩

/-- C4 counterexample: the single byte 0xFF matches none of the four UTF-8
sequence shapes and is not a valid continuation byte, yet `lcd_writeChar`
dispatches nothing at all for it: the byte is kept in the accumulator, no
replacement glyph is written and the cursor does not move. -/
theorem malformed_byte_no_dispatch :
    utf8Step 0 0xFF = (0xFF, none)
    ∧ lcd_writeChar lcdInitState 0xFF
      = { lcdCursor := 0, utf8Buffer := 0xFF, events := [] } := by
  decide

/-- C4 amended: when the accumulated pattern has a 2-, 3- or 4-byte lead in
position with all its bytes received but an invalid continuation byte, the
decoder dispatches U+FFFD, mapped to the fallback glyph byte 0xFF, and no
failure is propagated; a byte after which the accumulator matches no
complete shape (a lone lead, a stray continuation, or an invalid lead
0xF8–0xFF) is buffered with no dispatch. -/
theorem malformed_sequences_dispatch_replacement (s : LcdState) (lead cont : Nat)
    (hbuf : s.utf8Buffer = 0) (hcur : s.lcdCursor = 0)
    (h1 : 0xC0 ≤ lead) (h2 : lead < 0xE0) (hc : cont < 256) (hbad : cont / 64 ≠ 2) :
    feedDispatches 0 [lead, cont] = [none, some 0xfffd]
    ∧ glyphMap 0xfffd = 0xff
    ∧ (lcd_writeChar (lcd_writeChar s lead) cont).events
      = s.events ++ [BusEv.byte 1 0xff 46]
    ∧ (lcd_writeChar (lcd_writeChar s lead) cont).lcdCursor = 1
    ∧ (∀ l3 c1 c2, 0xE0 ≤ l3 → l3 < 0xF0 → c1 < 256 → c2 < 256 →
        ¬(c1 / 64 = 2 ∧ c2 / 64 = 2) →
        feedDispatches 0 [l3, c1, c2] = [none, none, some 0xfffd])
    ∧ (∀ l4 d1 d2 d3, 0xF0 ≤ l4 → l4 < 0xF8 → d1 < 256 → d2 < 256 → d3 < 256 →
        ¬(d1 / 64 = 2 ∧ d2 / 64 = 2 ∧ d3 / 64 = 2) →
        feedDispatches 0 [l4, d1, d2, d3] = [none, none, none, some 0xfffd])
    ∧ (∀ b, 0x80 ≤ b → b < 0x100 → lcd_writeChar s b = { s with utf8Buffer := b }) := by
  have hb1 := utf8Step_buffer1 lead (by omega) (by omega)
  have h2b := utf8Step_2bad lead cont h1 h2 hc hbad
  have sb1 : lcd_writeChar s lead = { s with utf8Buffer := lead } := by
    simp [lcd_writeChar, hbuf, hb1]
  have hg : glyphMap 0xfffd = 0xff := rfl
  refine ⟨?_, rfl, ?_, ?_, ?_, ?_, ?_⟩
  · simp [feedDispatches, hb1, h2b]
  · rw [sb1]
    simp [lcd_writeChar, h2b, hg, hcur, sendByteEv, emit, lcd_clear, lcd_line2, updateCursor]
  · rw [sb1]
    simp [lcd_writeChar, h2b, hcur, sendByteEv, emit, lcd_clear, lcd_line2, updateCursor]
  · intro l3 c1 c2 a1 a2 a3 a4 a5
    have k1 := utf8Step_buffer1 l3 (by omega) (by omega)
    have k2 := utf8Step_buffer2 l3 c1 (by omega) (by omega) a3
    have k3 := utf8Step_3bad l3 c1 c2 a1 a2 a3 a4 a5
    simp [feedDispatches, k1, k2, k3]
  · intro l4 d1 d2 d3 a1 a2 a3 a4 a5 a6
    have k1 := utf8Step_buffer1 l4 (by omega) (by omega)
    have k2 := utf8Step_buffer2 l4 d1 (by omega) (by omega) a3
    have k3 := utf8Step_buffer3 l4 d1 d2 a1 a2 a3 a4
    have k4 := utf8Step_4bad l4 d1 d2 d3 a1 a2 a3 a4 a5 a6
    simp [feedDispatches, k1, k2, k3, k4]
  · intro b hbl hbu
    have k := utf8Step_buffer1 b hbl hbu
    simp [lcd_writeChar, hbuf, k]

/-- C4 amended, witness: the malformed pair 0xC2 0x41 from the initial
state. -/
theorem malformed_sequences_dispatch_replacement_witness :
    feedDispatches 0 [0xC2, 0x41] = [none, some 0xfffd]
    ∧ glyphMap 0xfffd = 0xff
    ∧ (lcd_writeChar (lcd_writeChar lcdInitState 0xC2) 0x41).events
      = lcdInitState.events ++ [BusEv.byte 1 0xff 46]
    ∧ (lcd_writeChar (lcd_writeChar lcdInitState 0xC2) 0x41).lcdCursor = 1
    ∧ (∀ l3 c1 c2, 0xE0 ≤ l3 → l3 < 0xF0 → c1 < 256 → c2 < 256 →
        ¬(c1 / 64 = 2 ∧ c2 / 64 = 2) →
        feedDispatches 0 [l3, c1, c2] = [none, none, some 0xfffd])
    ∧ (∀ l4 d1 d2 d3, 0xF0 ≤ l4 → l4 < 0xF8 → d1 < 256 → d2 < 256 → d3 < 256 →
        ¬(d1 / 64 = 2 ∧ d2 / 64 = 2 ∧ d3 / 64 = 2) →
        feedDispatches 0 [l4, d1, d2, d3] = [none, none, none, some 0xfffd])
    ∧ (∀ b, 0x80 ≤ b → b < 0x100 →
        lcd_writeChar lcdInitState b = { lcdInitState with utf8Buffer := b }) :=
  malformed_sequences_dispatch_replacement lcdInitState 0xC2 0x41 rfl rfl
    (by norm_num) (by norm_num) (by norm_num) (by norm_num)

/-- C5: with an empty accumulator and a plain ASCII glyph byte, writing at
position 31 advances the internal position to the sentinel 32 with no
page-break command; writing at the sentinel 32 first issues the clear
command (resetting the cursor to 0) and then the glyph, leaving the cursor
at 1; writing at exactly 16 first issues the line-2 "set DDRAM address"
command (0xC0). -/
theorem writeChar_sentinel_and_linebreak (s : LcdState) (b : Nat)
    (hbuf : s.utf8Buffer = 0) (hb : b < 0x80) (hnl : b ≠ 10) :
    (lcd_writeChar { s with lcdCursor := 31 } b).lcdCursor = 32
    ∧ (lcd_writeChar { s with lcdCursor := 31 } b).events
      = s.events ++ [BusEv.byte 1 (glyphMap b) 46]
    ∧ (lcd_writeChar { s with lcdCursor := 32 } b).lcdCursor = 1
    ∧ (lcd_writeChar { s with lcdCursor := 32 } b).events
      = s.events ++ [BusEv.byte 0 0b00000001 1640, BusEv.byte 1 (glyphMap b) 46]
    ∧ (lcd_writeChar { s with lcdCursor := 16 } b).lcdCursor = 17
    ∧ (lcd_writeChar { s with lcdCursor := 16 } b).events
      = s.events ++ [BusEv.byte 0 0b11000000 42, BusEv.byte 1 (glyphMap b) 46] := by
  have hstep := utf8Step_ascii b hb
  refine ⟨?_, ?_, ?_, ?_, ?_, ?_⟩ <;>
    simp [lcd_writeChar, hbuf, hstep, hnl, lcd_clear, lcd_line2, updateCursor,
      sendByteEv, emit, ddramAddress] <;> decide

/-- C5 witness: writing 'A' at positions 31, 32 and 16 of the initial
state. -/
theorem writeChar_sentinel_and_linebreak_witness :
    (lcd_writeChar { lcdInitState with lcdCursor := 31 } 0x41).lcdCursor = 32
    ∧ (lcd_writeChar { lcdInitState with lcdCursor := 31 } 0x41).events
      = lcdInitState.events ++ [BusEv.byte 1 (glyphMap 0x41) 46]
    ∧ (lcd_writeChar { lcdInitState with lcdCursor := 32 } 0x41).lcdCursor = 1
    ∧ (lcd_writeChar { lcdInitState with lcdCursor := 32 } 0x41).events
      = lcdInitState.events
        ++ [BusEv.byte 0 0b00000001 1640, BusEv.byte 1 (glyphMap 0x41) 46]
    ∧ (lcd_writeChar { lcdInitState with lcdCursor := 16 } 0x41).lcdCursor = 17
    ∧ (lcd_writeChar { lcdInitState with lcdCursor := 16 } 0x41).events
      = lcdInitState.events
        ++ [BusEv.byte 0 0b11000000 42, BusEv.byte 1 (glyphMap 0x41) 46] :=
  writeChar_sentinel_and_linebreak lcdInitState 0x41 rfl (by norm_num) (by norm_num)
